import Mathlib

/-!
Shallow embedding of the two Streamlit apps of the msd-risk-app repository
(`src/app.py` and `src/msd_app.py`).  Form widgets become record fields,
the pandas dataframe becomes an association list of column name / value
pairs, the opaque model artifact becomes an `Option` of a predictor
function, and Python exceptions become `Except String`.  Python floats are
modelled by exact rationals (`ℚ`); no claim below depends on rounding.
-/

set_option autoImplicit false

namespace MsdRiskApp

/-- Values printed into the PDF report: integers, strings, or the derived
BMI rational. -/
inductive RVal where
  | nat (n : Nat)
  | str (s : String)
  | rat (q : ℚ)
  deriving DecidableEq, Repr

/-! ## `src/app.py` -/

/-- `app.py` line 19: the Gender selectbox options. -/
def genderOptions : List String := ["Male", "Female"]

/-- `app.py` lines 24-27: the Department selectbox options. -/
def departmentOptions : List String :=
  ["Crystallizer Operator", "Water Treatment Plant Operator", "Clarifier Assistant",
   "Lubrication Technician", "Evaporator Section Worker", "Other"]

/-- `app.py` line 29: the Work Shift radio options. -/
def shiftOptions : List String := ["Day Shift", "Night Shift"]

/-- One submission of the `app.py` form: the values read from the sidebar
widgets (lines 18-29), the nine Nordic-questionnaire pain sliders
(lines 33-43) and the two ergonomic score sliders (lines 47-48). -/
structure AppInputs where
  age : Nat
  gender : String
  height : Nat
  weight : Nat
  department : String
  shift : String
  neck : Nat
  shoulder : Nat
  elbow : Nat
  wrist : Nat
  upperBack : Nat
  lowerBack : Nat
  hipThigh : Nat
  knee : Nat
  ankle : Nat
  reba : Nat
  qec : Nat
  deriving DecidableEq, Repr

/-- The range bounds enforced by the `app.py` form widgets themselves:
slider and number-input min/max values, and membership in the selectbox /
radio option lists. -/
def AppWellFormed (i : AppInputs) : Prop :=
  18 ≤ i.age ∧ i.age ≤ 70 ∧ i.gender ∈ genderOptions ∧
  130 ≤ i.height ∧ i.height ≤ 200 ∧ 30 ≤ i.weight ∧ i.weight ≤ 120 ∧
  i.department ∈ departmentOptions ∧ i.shift ∈ shiftOptions ∧
  i.neck ≤ 10 ∧ i.shoulder ≤ 10 ∧ i.elbow ≤ 10 ∧ i.wrist ≤ 10 ∧
  i.upperBack ≤ 10 ∧ i.lowerBack ≤ 10 ∧ i.hipThigh ≤ 10 ∧ i.knee ≤ 10 ∧
  i.ankle ≤ 10 ∧ 1 ≤ i.reba ∧ i.reba ≤ 15 ∧ i.qec ≤ 176

instance (i : AppInputs) : Decidable (AppWellFormed i) := by
  unfold AppWellFormed; infer_instance

/-- `app.py` line 22: `bmi = weight / ((height / 100) ** 2)`. -/
def bmi (i : AppInputs) : ℚ :=
  (i.weight : ℚ) / (((i.height : ℚ) / 100) ^ 2)

/-- `app.py` lines 33-43: the `pain_inputs` dict, in insertion order. -/
def pain_inputs (i : AppInputs) : List (String × Nat) :=
  [("NMQ_Neck_Pain", i.neck),
   ("NMQ_Shoulder_Pain", i.shoulder),
   ("NMQ_Elbow_Pain", i.elbow),
   ("NMQ_Wrist_Pain", i.wrist),
   ("NMQ_Upper_Back_Pain", i.upperBack),
   ("NMQ_Lower_Back_Pain", i.lowerBack),
   ("NMQ_Hip_Thigh_Pain", i.hipThigh),
   ("NMQ_Knee_Pain", i.knee),
   ("NMQ_Ankle_Pain", i.ankle)]

/-- `list(pain_inputs.values())` of `app.py` line 62. -/
def painValues (i : AppInputs) : List Nat :=
  (pain_inputs i).map Prod.snd

/-- `app.py` lines 51-52:
`def one_hot_encoding(value, options): return [1 if value == opt else 0 for opt in options[1:]]`. -/
def one_hot_encoding {α : Type} [DecidableEq α] (value : α) (options : List α) : List Nat :=
  (options.drop 1).map (fun opt => if value = opt then 1 else 0)

/-- `app.py` line 54: `gender_enc = one_hot_encoding(gender, ["Male", "Female"])`. -/
def gender_enc (i : AppInputs) : List Nat := one_hot_encoding i.gender genderOptions

/-- `app.py` line 55: `shift_enc = one_hot_encoding(shift, [...])`. -/
def shift_enc (i : AppInputs) : List Nat := one_hot_encoding i.shift shiftOptions

/-- `app.py` lines 56-59: `dept_enc = one_hot_encoding(department, [...])`. -/
def dept_enc (i : AppInputs) : List Nat := one_hot_encoding i.department departmentOptions

/-- `app.py` line 62:
`input_features = [age, bmi, reba, qec] + list(pain_inputs.values()) + gender_enc + dept_enc + shift_enc`. -/
def input_features (i : AppInputs) : List ℚ :=
  [(i.age : ℚ), bmi i, (i.reba : ℚ), (i.qec : ℚ)]
    ++ (painValues i).map (fun n => (n : ℚ))
    ++ (gender_enc i).map (fun n => (n : ℚ))
    ++ (dept_enc i).map (fun n => (n : ℚ))
    ++ (shift_enc i).map (fun n => (n : ℚ))

/-- `app.py` lines 63-66: `input_df = pd.DataFrame([input_features], columns=model.feature_names_in_)`.
The dataframe is the pairing of the model's expected column names with the
positional feature values; pandas raises `ValueError` when the lengths
differ, which `none` models. -/
def appInputDf (expected : List String) (i : AppInputs) : Option (List (String × ℚ)) :=
  if expected.length = (input_features i).length then
    some (expected.zip (input_features i))
  else
    none

/-- `app.py` line 71: `result_text = "⚠ High Risk of Musculoskeletal Disorder" if prediction == 1 else "✅ Low Risk of MSD"`. -/
def result_text (prediction : Nat) : String :=
  if prediction = 1 then "⚠ High Risk of Musculoskeletal Disorder" else "✅ Low Risk of MSD"

/-- Drops a leading `NMQ_` tag, modelling `region.replace('NMQ_', '')` of
`app.py` line 100 on the nine pain keys, where `NMQ_` occurs only as the
leading tag. -/
def dropNMQTag (s : String) : String :=
  if List.isPrefixOf "NMQ_".toList s.toList then String.mk (s.toList.drop 4) else s

/-- `region.replace('NMQ_', '').replace('_', ' ')` of `app.py` line 100. -/
def reportLabel (region : String) : String :=
  String.mk ((dropNMQTag region).toList.map (fun c => if c = '_' then ' ' else c))

/-- `app.py` lines 88-104: the text fields of the generated PDF, one
`(label, value)` pair per formatted quantity, in the order the `pdf.cell`
calls emit them.  Line 93 prints the prediction, line 94 prints age,
gender and the derived BMI, line 95 department and shift, line 96 the two
ergonomic scores, and lines 99-100 print each pain score as
`"<region>: <score>/10"`. -/
def appReport (i : AppInputs) (prediction : Nat) : List (String × RVal) :=
  [("Prediction", RVal.str (if prediction = 1 then "High Risk" else "Low Risk")),
   ("Age", RVal.nat i.age),
   ("Gender", RVal.str i.gender),
   ("BMI", RVal.rat (bmi i)),
   ("Department", RVal.str i.department),
   ("Shift", RVal.str i.shift),
   ("REBA Score", RVal.nat i.reba),
   ("QEC Score", RVal.nat i.qec)]
  ++ (pain_inputs i).map (fun p => (reportLabel p.1, RVal.str (toString p.2 ++ "/10")))

/-- What `app.py` shows for one press of the predict button (lines 69-104):
the call to `model.predict` may raise, and nothing in `app.py` catches it,
so the handler's result is an `Except` whose `error` case is the
propagated, uncaught exception. -/
def appSubmit (predict : List (String × ℚ) → Except String Nat)
    (expected : List String) (i : AppInputs) :
    Except String (String × List (String × RVal)) := do
  let df ← match appInputDf expected i with
    | some df => Except.ok df
    | none => Except.error "ValueError: Shape of passed values does not match columns"
  let p ← predict df
  Except.ok (result_text p, appReport i p)

/-- Outcome of one full run of the `app.py` script. -/
inductive AppRun where
  | fatal (msg : String)
  | completed (r : Except String (String × List (String × RVal)))
  deriving Repr

/-- `app.py` line 10: `model = joblib.load("msd_model.pkl")` runs before
any widget is declared; a missing artifact raises and stops the script
there, and Streamlit displays the exception. -/
def appRun (artifact : Option (List (String × ℚ) → Except String Nat))
    (expected : List String) (i : AppInputs) : AppRun :=
  match artifact with
  | none => AppRun.fatal "FileNotFoundError: msd_model.pkl"
  | some m => AppRun.completed (appSubmit m expected i)

/-- The risk label a run of `app.py` displayed, when it produced one. -/
def appPrediction : AppRun → Option String
  | AppRun.completed (Except.ok (t, _)) => some t
  | _ => none

/-! ## `src/msd_app.py` -/

/-- One submission of the `msd_app.py` form: the number inputs and sliders
of lines 34-39 and the nine pain-area checkboxes of lines 44-54. -/
structure MsdInputs where
  age : Nat
  gender : String
  height : Nat
  weight : Nat
  reba_score : Nat
  qec_score : Nat
  neck : Bool
  shoulder : Bool
  elbow : Bool
  wrist : Bool
  upperBack : Bool
  lowerBack : Bool
  hipThigh : Bool
  knee : Bool
  ankle : Bool
  deriving DecidableEq, Repr

/-- `msd_app.py` line 40: `gender_val = 0 if gender == "Male" else 1`. -/
def gender_val (j : MsdInputs) : Nat :=
  if j.gender = "Male" then 0 else 1

/-- `msd_app.py` lines 44-54: the `pain_areas` dict of checkbox values, in
insertion order. -/
def pain_areas (j : MsdInputs) : List (String × Bool) :=
  [("Neck", j.neck),
   ("Shoulder", j.shoulder),
   ("Elbow", j.elbow),
   ("Wrist", j.wrist),
   ("Upper Back", j.upperBack),
   ("Lower Back", j.lowerBack),
   ("Hip/Thigh", j.hipThigh),
   ("Knee", j.knee),
   ("Ankle", j.ankle)]

/-- `key.replace("/", "").replace(" ", "")` of `msd_app.py` line 67:
removes every slash and space character. -/
def squashKey (s : String) : String :=
  String.mk (s.toList.filter (fun c => !(c = '/' || c = ' ')))

/-- `msd_app.py` line 67: `col_name = f'NMQ_{key.replace("/", "").replace(" ", "")}_Pain'`. -/
def colName (key : String) : String :=
  "NMQ_" ++ squashKey key ++ "_Pain"

/-- `msd_app.py` lines 57-70: the `input_data` dict handed to
`pd.DataFrame`, six fixed columns followed by the nine pain columns added
by the loop of lines 66-68 with `int(value)` as the value. -/
def input_data (j : MsdInputs) : List (String × Nat) :=
  [("Age", j.age),
   ("Gender", gender_val j),
   ("Height_cm", j.height),
   ("Weight_kg", j.weight),
   ("QEC_Obs_Total_Score", j.qec_score),
   ("REBA_Final_Score", j.reba_score)]
  ++ (pain_areas j).map (fun p => (colName p.1, if p.2 then 1 else 0))

/-- Modelled from the spec: the column schema of the pre-trained artifact
`msd_risk_predictor.pkl`, which is repository data absent from `src/`.
The spec describes the predictor as exposing `predict(record) -> category`
over "a fixed, named feature schema" that the assembled record must match
exactly, so the schema is the fixed list of column names the record is
assembled with. -/
def msdExpectedSchema : List String :=
  ["Age", "Gender", "Height_cm", "Weight_kg", "QEC_Obs_Total_Score", "REBA_Final_Score",
   "NMQ_Neck_Pain", "NMQ_Shoulder_Pain", "NMQ_Elbow_Pain", "NMQ_Wrist_Pain",
   "NMQ_UpperBack_Pain", "NMQ_LowerBack_Pain", "NMQ_HipThigh_Pain",
   "NMQ_Knee_Pain", "NMQ_Ankle_Pain"]

/-- `msd_app.py` line 73: `label_map = {0: 'Low', 1: 'Medium', 2: 'High', 3: 'Very High'}`. -/
def label_map : List (Nat × String) :=
  [(0, "Low"), (1, "Medium"), (2, "High"), (3, "Very High")]

/-- `label_map[prediction]` of `msd_app.py` line 79: dict lookup, `none`
models the `KeyError` raised on a missing key. -/
def lookupLabel (prediction : Nat) : Option String :=
  List.lookup prediction label_map

/-- `msd_app.py` lines 97 and 132: the pain areas whose checkbox was
checked, the only ones listed in the PDF. -/
def pain_selected (j : MsdInputs) : List String :=
  ((pain_areas j).filter (fun p => p.2)).map Prod.fst

/-- `msd_app.py` lines 118-133: the text fields of the generated PDF, one
`(label, value)` pair per `pdf.cell` quantity.  Lines 124-130 print the
six entered numbers/strings and the predicted label; lines 131-133 list
only the selected pain areas, each as a `- <area>` bullet modelled as a
`("Pain Area", area)` field. -/
def msdReport (j : MsdInputs) (riskLabel : String) : List (String × RVal) :=
  [("Age", RVal.nat j.age),
   ("Gender", RVal.str j.gender),
   ("Height", RVal.nat j.height),
   ("Weight", RVal.nat j.weight),
   ("REBA Score", RVal.nat j.reba_score),
   ("QEC Score", RVal.nat j.qec_score),
   ("Predicted Risk Level", RVal.str riskLabel)]
  ++ (pain_selected j).map (fun a => ("Pain Area", RVal.str a))

/-- What `msd_app.py` shows for one press of the predict button. -/
inductive MsdResponse where
  | success (riskLabel : String) (report : List (String × RVal))
  | errorShown (msg : String)
  deriving DecidableEq, Repr

/-- `msd_app.py` lines 76-141: the whole handler body runs inside
`try: ... except Exception as e: st.error(f"🚨 Error during prediction: {e}")`,
so an exception raised by `model.predict` (line 78) or by the
`label_map[prediction]` lookup (line 79) is caught and surfaced as an
error message instead of propagating. -/
def msdSubmit (predict : List (String × Nat) → Except String Nat)
    (j : MsdInputs) : MsdResponse :=
  match predict (input_data j) with
  | Except.error e => MsdResponse.errorShown ("🚨 Error during prediction: " ++ e)
  | Except.ok p =>
    match lookupLabel p with
    | none => MsdResponse.errorShown ("🚨 Error during prediction: " ++ toString p)
    | some l => MsdResponse.success l (msdReport j l)

/-- Outcome of one full run of the `msd_app.py` script. -/
inductive MsdRun where
  | fatal (msg : String)
  | completed (r : MsdResponse)
  deriving DecidableEq, Repr

/-- `msd_app.py` lines 25-29: the artifact-existence check runs before the
input section; on a missing file the script shows
`st.error("❌ Model file not found!")` and `st.stop()` halts it. -/
def msdRun (artifact : Option (List (String × Nat) → Except String Nat))
    (j : MsdInputs) : MsdRun :=
  match artifact with
  | none => MsdRun.fatal "❌ Model file not found!"
  | some m => MsdRun.completed (msdSubmit m j)

/-- The risk label a run of `msd_app.py` displayed, when it produced one. -/
def msdPrediction : MsdRun → Option String
  | MsdRun.completed (MsdResponse.success l _) => some l
  | _ => none

/-! ## History logging -/

/-- Modelled from the spec: the history-logging step.  The spec lists
"file I/O for history logging" among the app variants' duplicated glue
and describes "appended history rows" as "opportunistic, unordered-safe
appends to a flat file"; no variant under `src/` contains this code.  A
submission appends one summary row at the end of the flat file's rows. -/
def appendHistoryRow (history : List (List String)) (row : List String) :
    List (List String) :=
  history ++ [row]

/-! ## Predicates and concrete sample data used by the theorems -/

/-- A value appears somewhere in a report, under any label. -/
def fieldReported (v : RVal) (rpt : List (String × RVal)) : Prop :=
  ∃ p ∈ rpt, p.2 = v

instance (v : RVal) (rpt : List (String × RVal)) : Decidable (fieldReported v rpt) := by
  unfold fieldReported; infer_instance

/-- The drop-first one-hot encoding contract of `one_hot_encoding`:
output length is one less than the option count, every entry is 0 or 1, at
most one entry is 1, all entries are 0 exactly when the value is the first
option or not an option, and otherwise the single 1 sits at the position
of the value within the tail of the options. -/
def oheSpec {α : Type} [DecidableEq α] (value : α) (options : List α) : Prop :=
  (one_hot_encoding value options).length = options.length - 1 ∧
  (∀ x ∈ one_hot_encoding value options, x = 0 ∨ x = 1) ∧
  (one_hot_encoding value options).count 1 ≤ 1 ∧
  ((∀ x ∈ one_hot_encoding value options, x = 0) ↔
    (options.head? = some value ∨ value ∉ options)) ∧
  (value ∈ options.drop 1 →
    (one_hot_encoding value options).count 1 = 1 ∧
    (one_hot_encoding value options)[(options.drop 1).indexOf value]? = some 1)

/-- A plausible 20-name model schema, used only as concrete witness data
for `model.feature_names_in_`, which lives inside the opaque artifact. -/
def exampleSchema20 : List String :=
  ["Age", "BMI", "REBA_Final_Score", "QEC_Total_Score",
   "NMQ_Neck_Pain", "NMQ_Shoulder_Pain", "NMQ_Elbow_Pain", "NMQ_Wrist_Pain",
   "NMQ_Upper_Back_Pain", "NMQ_Lower_Back_Pain", "NMQ_Hip_Thigh_Pain",
   "NMQ_Knee_Pain", "NMQ_Ankle_Pain", "Gender_Female",
   "Dept_WTP", "Dept_Clarifier", "Dept_Lubrication", "Dept_Evaporator",
   "Dept_Other", "Shift_Night"]

/-- The default values of the `app.py` form widgets, as one concrete
submission. -/
def sampleAppInputs : AppInputs :=
  { age := 35, gender := "Male", height := 165, weight := 65,
    department := "Other", shift := "Day Shift",
    neck := 0, shoulder := 0, elbow := 0, wrist := 0, upperBack := 0,
    lowerBack := 0, hipThigh := 0, knee := 0, ankle := 0, reba := 5, qec := 50 }

/-- One concrete submission of the `msd_app.py` form. -/
def sampleMsdInputs : MsdInputs :=
  { age := 35, gender := "Male", height := 165, weight := 65,
    reba_score := 5, qec_score := 50,
    neck := true, shoulder := false, elbow := false, wrist := false,
    upperBack := false, lowerBack := false, hipThigh := false,
    knee := false, ankle := false }

/-- A concrete `app.py` submission whose entered height, 157 cm, is within
the widget bounds and differs from every other entered value. -/
def cexReportInputs : AppInputs :=
  { sampleAppInputs with height := 157 }

/-- A concrete `app.py` submission with the Neck pain slider at 7, within
the widget's 0-10 range. -/
def cexPainInputs : AppInputs :=
  { sampleAppInputs with neck := 7 }

/-- A predictor stand-in whose `predict` raises on every input. -/
def failingMsdPredictor : List (String × Nat) → Except String Nat :=
  fun _ => Except.error "boom"

/-- A predictor stand-in whose `predict` raises on every input. -/
def failingAppPredictor : List (String × ℚ) → Except String Nat :=
  fun _ => Except.error "boom"

/-! ## Theorems -/

/-- Every `int(checkbox)` value is 0 or 1. -/
theorem boolToNat01 (b : Bool) :
    (if b then (1 : Nat) else 0) = 0 ∨ (if b then (1 : Nat) else 0) = 1 := by
  cases b <;> simp

/-- C1: whenever `app.py` builds its dataframe, the column names are
exactly `model.feature_names_in_` — every expected column once (given the
model declares distinct names) and nothing else; and the `input_data` columns
of `msd_app.py` are exactly the fixed named schema of the artifact, which
is duplicate-free. -/
theorem input_df_matches_model_schema (expected : List String) (i : AppInputs)
    (j : MsdInputs) (df : List (String × ℚ)) (hnd : expected.Nodup)
    (hdf : appInputDf expected i = some df) :
    df.map Prod.fst = expected ∧ (df.map Prod.fst).Nodup ∧
    (input_data j).map Prod.fst = msdExpectedSchema ∧ msdExpectedSchema.Nodup := by
  have hlen : expected.length = (input_features i).length := by
    by_cases h : expected.length = (input_features i).length
    · exact h
    · simp [appInputDf, h] at hdf
  have hdf2 : df = expected.zip (input_features i) := by
    have := hdf
    simp [appInputDf, hlen] at this
    exact this.symm
  subst hdf2
  have hmap : (expected.zip (input_features i)).map Prod.fst = expected :=
    List.map_fst_zip _ _ (le_of_eq hlen)
  exact ⟨hmap, hmap.symm ▸ hnd, rfl, by decide⟩

/-- Witness for `input_df_matches_model_schema`: a concrete 20-name
schema, the default `app.py` submission and a concrete `msd_app.py`
submission. -/
theorem input_df_matches_model_schema_witness :
    exampleSchema20.Nodup ∧
    appInputDf exampleSchema20 sampleAppInputs
      = some (exampleSchema20.zip (input_features sampleAppInputs)) ∧
    ((exampleSchema20.zip (input_features sampleAppInputs)).map Prod.fst = exampleSchema20 ∧
      ((exampleSchema20.zip (input_features sampleAppInputs)).map Prod.fst).Nodup ∧
      (input_data sampleMsdInputs).map Prod.fst = msdExpectedSchema ∧
      msdExpectedSchema.Nodup) :=
  ⟨by decide, rfl,
    input_df_matches_model_schema exampleSchema20 sampleAppInputs sampleMsdInputs _
      (by decide) rfl⟩

/-- C2: the mapping from predicted class index to displayed risk tier is a
fixed total function on each of 0, 1, 2, 3: the `label_map` of `msd_app.py`
assigns each of the four indices its tier, and `result_text` of `app.py`
assigns every index a label (High for 1, Low otherwise). -/
theorem label_mapping_total_on_four_indices :
    lookupLabel 0 = some "Low" ∧ lookupLabel 1 = some "Medium" ∧
    lookupLabel 2 = some "High" ∧ lookupLabel 3 = some "Very High" ∧
    result_text 0 = "✅ Low Risk of MSD" ∧
    result_text 1 = "⚠ High Risk of Musculoskeletal Disorder" ∧
    result_text 2 = "✅ Low Risk of MSD" ∧
    result_text 3 = "✅ Low Risk of MSD" :=
  ⟨rfl, rfl, rfl, rfl, rfl, rfl, rfl, rfl⟩

/-- C3 counterexample: a permitted submission whose entered height, 157
cm, appears nowhere in the `app.py` report — neither as a value (only the
derived BMI is printed) nor under a Height or Weight label — for either
prediction outcome, so the report does not contain every input field
verbatim. -/
theorem report_omits_height_counterexample :
    cexReportInputs.height = 157 ∧ AppWellFormed cexReportInputs ∧
    ¬ fieldReported (RVal.nat 157) (appReport cexReportInputs 0) ∧
    ¬ fieldReported (RVal.nat 157) (appReport cexReportInputs 1) ∧
    (∀ p ∈ appReport cexReportInputs 0, p.1 ≠ "Height" ∧ p.1 ≠ "Weight") := by
  decide

/-- C3 amended: the `app.py` report contains verbatim the entered age,
gender, department, shift, REBA and QEC values and each of the nine pain
scores (height and weight appear only through the derived BMI), and
the `msd_app.py` report contains verbatim the entered age, gender, height,
weight, REBA and QEC values, the predicted label, and each selected pain
area (unselected pain areas are omitted). -/
theorem report_contains_entered_fields (i : AppInputs) (p : Nat) (j : MsdInputs) (l : String) :
    (("Age", RVal.nat i.age) ∈ appReport i p ∧
     ("Gender", RVal.str i.gender) ∈ appReport i p ∧
     ("Department", RVal.str i.department) ∈ appReport i p ∧
     ("Shift", RVal.str i.shift) ∈ appReport i p ∧
     ("REBA Score", RVal.nat i.reba) ∈ appReport i p ∧
     ("QEC Score", RVal.nat i.qec) ∈ appReport i p) ∧
    (("Neck Pain", RVal.str (toString i.neck ++ "/10")) ∈ appReport i p ∧
     ("Shoulder Pain", RVal.str (toString i.shoulder ++ "/10")) ∈ appReport i p ∧
     ("Elbow Pain", RVal.str (toString i.elbow ++ "/10")) ∈ appReport i p ∧
     ("Wrist Pain", RVal.str (toString i.wrist ++ "/10")) ∈ appReport i p ∧
     ("Upper Back Pain", RVal.str (toString i.upperBack ++ "/10")) ∈ appReport i p ∧
     ("Lower Back Pain", RVal.str (toString i.lowerBack ++ "/10")) ∈ appReport i p ∧
     ("Hip Thigh Pain", RVal.str (toString i.hipThigh ++ "/10")) ∈ appReport i p ∧
     ("Knee Pain", RVal.str (toString i.knee ++ "/10")) ∈ appReport i p ∧
     ("Ankle Pain", RVal.str (toString i.ankle ++ "/10")) ∈ appReport i p) ∧
    (("Age", RVal.nat j.age) ∈ msdReport j l ∧
     ("Gender", RVal.str j.gender) ∈ msdReport j l ∧
     ("Height", RVal.nat j.height) ∈ msdReport j l ∧
     ("Weight", RVal.nat j.weight) ∈ msdReport j l ∧
     ("REBA Score", RVal.nat j.reba_score) ∈ msdReport j l ∧
     ("QEC Score", RVal.nat j.qec_score) ∈ msdReport j l ∧
     ("Predicted Risk Level", RVal.str l) ∈ msdReport j l) ∧
    (∀ a ∈ pain_selected j, ("Pain Area", RVal.str a) ∈ msdReport j l) := by
  refine ⟨⟨?_, ?_, ?_, ?_, ?_, ?_⟩, ⟨?_, ?_, ?_, ?_, ?_, ?_, ?_, ?_, ?_⟩,
    ⟨?_, ?_, ?_, ?_, ?_, ?_, ?_⟩, ?_⟩ <;>
  first
    | (intro a ha
       unfold msdReport
       exact List.mem_append_right _ (List.mem_map_of_mem _ ha))
    | simp [appReport, pain_inputs, reportLabel, dropNMQTag, msdReport]

/-- C4: with the model artifact missing from disk, both scripts halt with
a user-visible message before any input is consumed, and no prediction is
ever produced. -/
theorem missing_artifact_halts (expected : List String) (i : AppInputs) (j : MsdInputs) :
    appRun none expected i = AppRun.fatal "FileNotFoundError: msd_model.pkl" ∧
    msdRun none j = MsdRun.fatal "❌ Model file not found!" ∧
    appPrediction (appRun none expected i) = none ∧
    msdPrediction (msdRun none j) = none :=
  ⟨rfl, rfl, rfl, rfl⟩

/-- C5 counterexample: with a predictor whose `predict` raises, the
outcome of the `app.py` handler is the raw propagated exception — nothing in
`app.py` catches it and no error message is rendered in its place — so the
claim that every prediction exception is caught and surfaced fails on
`app.py`. -/
theorem app_prediction_error_propagates_counterexample :
    appSubmit failingAppPredictor exampleSchema20 sampleAppInputs = Except.error "boom" ∧
    appRun (some failingAppPredictor) exampleSchema20 sampleAppInputs
      = AppRun.completed (Except.error "boom") ∧
    appPrediction (appRun (some failingAppPredictor) exampleSchema20 sampleAppInputs) = none :=
  ⟨rfl, rfl, rfl⟩

/-- C5 amended: in `msd_app.py` a raising predictor is caught by the
`try/except` of the handler and surfaced as the error message
`🚨 Error during prediction: ...`; in `app.py` the same exception
propagates out of the handler uncaught. -/
theorem prediction_error_handling (pm : List (String × Nat) → Except String Nat)
    (pa : List (String × ℚ) → Except String Nat) (expected : List String)
    (i : AppInputs) (j : MsdInputs) (e : String) (df : List (String × ℚ))
    (hm : pm (input_data j) = Except.error e)
    (hdf : appInputDf expected i = some df) (ha : pa df = Except.error e) :
    msdSubmit pm j = MsdResponse.errorShown ("🚨 Error during prediction: " ++ e) ∧
    appSubmit pa expected i = Except.error e := by
  constructor
  · simp [msdSubmit, hm]
  · unfold appSubmit
    rw [hdf]
    show (do let p ← pa df; Except.ok (result_text p, appReport i p)) = Except.error e
    rw [ha]
    rfl

/-- Witness for `prediction_error_handling`: the concrete always-raising
predictors on concrete submissions. -/
theorem prediction_error_handling_witness :
    failingMsdPredictor (input_data sampleMsdInputs) = Except.error "boom" ∧
    appInputDf exampleSchema20 sampleAppInputs
      = some (exampleSchema20.zip (input_features sampleAppInputs)) ∧
    failingAppPredictor (exampleSchema20.zip (input_features sampleAppInputs))
      = Except.error "boom" ∧
    (msdSubmit failingMsdPredictor sampleMsdInputs
        = MsdResponse.errorShown ("🚨 Error during prediction: " ++ "boom") ∧
      appSubmit failingAppPredictor exampleSchema20 sampleAppInputs
        = Except.error "boom") :=
  ⟨rfl, rfl, rfl,
    prediction_error_handling failingMsdPredictor failingAppPredictor exampleSchema20
      sampleAppInputs sampleMsdInputs "boom" _ rfl rfl rfl⟩

/-- C6 counterexample: a permitted `app.py` submission with the Neck
slider at 7 has a pain field whose value is neither 0 nor 1, so the pain
fields are not boolean-valued. -/
theorem pain_fields_not_boolean_counterexample :
    AppWellFormed cexPainInputs ∧
    ("NMQ_Neck_Pain", 7) ∈ pain_inputs cexPainInputs ∧
    ¬ (∀ p ∈ pain_inputs cexPainInputs, p.2 = 0 ∨ p.2 = 1) := by
  decide

/-- C6 amended: both apps carry exactly nine pain fields, one per body
region; in `msd_app.py` each pain column of `input_data` is 0 or 1
(`int` of a checkbox), while in `app.py` each pain field is an ordinal
slider score in 0..10, not a boolean. -/
theorem pain_fields_structure (i : AppInputs) (j : MsdInputs) (hw : AppWellFormed i) :
    (pain_inputs i).length = 9 ∧ (pain_areas j).length = 9 ∧
    (∀ p ∈ (input_data j).drop 6, p.2 = 0 ∨ p.2 = 1) ∧
    (∀ p ∈ pain_inputs i, p.2 ≤ 10) := by
  refine ⟨rfl, rfl, ?_, ?_⟩
  · intro p hp
    simp [input_data, pain_areas] at hp
    rcases hp with rfl | rfl | rfl | rfl | rfl | rfl | rfl | rfl | rfl <;> exact boolToNat01 _
  · obtain ⟨-, -, -, -, -, -, -, -, -, h1, h2, h3, h4, h5, h6, h7, h8, h9, -, -, -⟩ := hw
    intro p hp
    simp [pain_inputs] at hp
    rcases hp with rfl | rfl | rfl | rfl | rfl | rfl | rfl | rfl | rfl <;> assumption

/-- Witness for `pain_fields_structure` at the default `app.py` submission
and a concrete `msd_app.py` submission. -/
theorem pain_fields_structure_witness :
    AppWellFormed sampleAppInputs ∧
    ((pain_inputs sampleAppInputs).length = 9 ∧
      (pain_areas sampleMsdInputs).length = 9 ∧
      (∀ p ∈ (input_data sampleMsdInputs).drop 6, p.2 = 0 ∨ p.2 = 1) ∧
      (∀ p ∈ pain_inputs sampleAppInputs, p.2 ≤ 10)) :=
  ⟨by decide, pain_fields_structure sampleAppInputs sampleMsdInputs (by decide)⟩

/-- C7: `app.py` assembles `input_features` in a fixed sequence regardless
of the entered values: age, BMI, REBA, QEC at positions 0-3, the nine pain
scores in their fixed region order at positions 4-12, then the gender,
department and shift encodings at positions 13, 14-18 and 19, for 20
features in all. -/
theorem input_features_fixed_order (i : AppInputs) :
    (input_features i).length = 20 ∧
    (input_features i).take 4 = [(i.age : ℚ), bmi i, (i.reba : ℚ), (i.qec : ℚ)] ∧
    ((input_features i).drop 4).take 9 = (painValues i).map (fun n => (n : ℚ)) ∧
    ((input_features i).drop 13).take 1 = (gender_enc i).map (fun n => (n : ℚ)) ∧
    ((input_features i).drop 14).take 5 = (dept_enc i).map (fun n => (n : ℚ)) ∧
    (input_features i).drop 19 = (shift_enc i).map (fun n => (n : ℚ)) :=
  ⟨rfl, rfl, rfl, rfl, rfl, rfl⟩

/-- C8: appending a history row adds exactly one summary row at the end of
the flat file and leaves every previously appended row unchanged. -/
theorem history_append_preserves_rows (history : List (List String)) (row : List String) :
    (appendHistoryRow history row).length = history.length + 1 ∧
    (appendHistoryRow history row).take history.length = history ∧
    (appendHistoryRow history row).drop history.length = [row] :=
  ⟨by simp [appendHistoryRow], List.take_left history [row], List.drop_left history [row]⟩

/-- C9: for pairwise-distinct, nonempty options, `one_hot_encoding`
satisfies the drop-first one-hot contract `oheSpec`: output length is the
option count minus one, entries are 0/1 with at most one 1, all entries
are 0 exactly when the value is the first option or not an option, and
otherwise the single 1 sits at the position of the value within the tail. -/
theorem one_hot_encoding_spec {α : Type} [DecidableEq α] (value : α) (options : List α)
    (hnd : options.Nodup) (hne : options ≠ []) : oheSpec value options := by
  obtain ⟨a, t, rfl⟩ := List.exists_cons_of_ne_nil hne
  have hat : a ∉ t := (List.nodup_cons.mp hnd).1
  have hts : t.Nodup := (List.nodup_cons.mp hnd).2
  have hdrop : (a :: t).drop 1 = t := rfl
  have hcount : (one_hot_encoding value (a :: t)).count 1 = t.count value := by
    unfold one_hot_encoding
    rw [hdrop, List.count, List.countP_map]
    refine List.countP_congr ?_
    intro o ho
    by_cases h : value = o
    · subst h
      simp [Function.comp]
    · simp [Function.comp, if_neg h, beq_iff_eq, Ne.symm h]
  have hallzero : (∀ x ∈ one_hot_encoding value (a :: t), x = 0) ↔ value ∉ t := by
    unfold one_hot_encoding
    rw [hdrop]
    constructor
    · intro hall hvt
      have h1 : (if value = value then (1 : Nat) else 0)
          ∈ t.map (fun opt => if value = opt then 1 else 0) :=
        List.mem_map_of_mem _ hvt
      have := hall _ h1
      simp at this
    · intro hvt x hx
      rw [List.mem_map] at hx
      obtain ⟨o, ho, rfl⟩ := hx
      have : value ≠ o := fun h => hvt (h ▸ ho)
      simp [this]
  refine ⟨?_, ?_, ?_, ?_, ?_⟩
  · simp [one_hot_encoding]
  · intro x hx
    unfold one_hot_encoding at hx
    rw [List.mem_map] at hx
    obtain ⟨o, ho, rfl⟩ := hx
    by_cases h : value = o <;> simp [h]
  · rw [hcount]
    exact List.nodup_iff_count_le_one.mp hts value
  · rw [hallzero]
    constructor
    · intro hvt
      by_cases hav : value = a
      · exact Or.inl (by simp [hav])
      · exact Or.inr (by simp [List.mem_cons, hav, hvt])
    · rintro (h | h)
      · simp at h
        exact h ▸ hat
      · exact fun hvt => h (List.mem_cons_of_mem a hvt)
  · intro hvt
    rw [hdrop] at hvt ⊢
    constructor
    · rw [hcount]
      exact List.count_eq_one_of_mem hts hvt
    · unfold one_hot_encoding
      rw [hdrop, List.getElem?_map, List.getElem?_indexOf hvt]
      simp

/-- Witness for `one_hot_encoding_spec` at the concrete call of `app.py`
line 54: the gender options with the value `Female`. -/
theorem one_hot_encoding_spec_witness :
    genderOptions.Nodup ∧ genderOptions ≠ [] ∧ oheSpec "Female" genderOptions :=
  ⟨by decide, by decide,
    one_hot_encoding_spec "Female" genderOptions (by decide) (by decide)⟩

/-- C10: for any height the form widget permits (at least 130 cm) the BMI
denominator `(height / 100) ** 2` is nonzero and strictly positive, so the
division defining `bmi` is well defined and multiplying back by the
denominator recovers the weight. -/
theorem bmi_denominator_positive (i : AppInputs) (h : 130 ≤ i.height) :
    (((i.height : ℚ) / 100) ^ 2) ≠ 0 ∧ 0 < (((i.height : ℚ) / 100) ^ 2) ∧
    bmi i * (((i.height : ℚ) / 100) ^ 2) = (i.weight : ℚ) := by
  have hp : (0 : ℚ) < (i.height : ℚ) := by
    exact_mod_cast Nat.lt_of_lt_of_le (by norm_num) h
  have hsq : (0 : ℚ) < ((i.height : ℚ) / 100) ^ 2 := by positivity
  exact ⟨ne_of_gt hsq, hsq, div_mul_cancel₀ _ (ne_of_gt hsq)⟩

/-- Witness for `bmi_denominator_positive` at the widget default height of
165 cm. -/
theorem bmi_denominator_positive_witness :
    130 ≤ sampleAppInputs.height ∧
    ((((sampleAppInputs.height : ℚ) / 100) ^ 2) ≠ 0 ∧
      0 < (((sampleAppInputs.height : ℚ) / 100) ^ 2) ∧
      bmi sampleAppInputs * (((sampleAppInputs.height : ℚ) / 100) ^ 2)
        = (sampleAppInputs.weight : ℚ)) :=
  ⟨by decide, bmi_denominator_positive sampleAppInputs (by decide)⟩

end MsdRiskApp
